import Mathlib

/-!
Verification of the athlete-coaching-system analytics core.

Shallow embedding of the algorithmic parts of the repository:
`pwx_parser/parser.py` (stream metrics), `scripts/build_readiness_model.py`
(CTL/ATL/TSB load tracking), `scripts/build_trainability_model.py` and
`scripts/fetch_peak_powers.py` (Banister fit guards),
`scripts/calculate_readiness.py` (readiness scoring and health gates) and
`scripts/generate_weekly_intent.py` (weekly planning).

Python floats are modelled as `ℚ` where the code only does field arithmetic
and comparisons, and as `ℝ` where `math.exp` or fractional powers appear.
`None` is modelled as `Option.none`; Python truthiness of a numeric-or-None
value (`if x:`) is modelled by `truthy`.
-/

namespace AthleteCoaching

/-- Truthiness of an optional number, as Python evaluates `if x:` for a
value that is either `None` or a float: `None` and `0` are falsy. -/
def truthy : Option ℚ → Bool
  | none => false
  | some x => decide (x ≠ 0)

/-- Python `a or b` on optional numbers: returns `a` when `a` is truthy,
otherwise `b`. -/
def pyOr (a b : Option ℚ) : Option ℚ :=
  if truthy a then a else b

/-- Arithmetic mean of a list of rationals (`statistics.mean`); on the empty
list the quotient degenerates to `0` (the Python call sites never pass an
empty list). -/
def mean (l : List ℚ) : ℚ :=
  l.sum / l.length

/-! ## Stream Metrics Calculator: `pwx_parser/parser.py` -/

/-- Zone index (1-7) of one power sample, from the `if/elif` ladder in
`PWXParser._calculate_zones` (parser.py lines 326-341): percent of FTP
cut at 55/76/91/106/121/151. -/
def zoneOf (ftp p : ℚ) : ℕ :=
  if p / ftp * 100 < 55 then 1
  else if p / ftp * 100 < 76 then 2
  else if p / ftp * 100 < 91 then 3
  else if p / ftp * 100 < 106 then 4
  else if p / ftp * 100 < 121 then 5
  else if p / ftp * 100 < 151 then 6
  else 7

/-- Seconds accumulated in each of the seven Coggan zones. -/
structure Zones where
  z1 : ℕ
  z2 : ℕ
  z3 : ℕ
  z4 : ℕ
  z5 : ℕ
  z6 : ℕ
  z7 : ℕ
  deriving DecidableEq, Repr

/-- Add one second to the zone bucket `k` (1-7); other indices leave the
record unchanged (`zoneOf` only produces 1-7). -/
def addZone (z : Zones) (k : ℕ) : Zones :=
  match k with
  | 1 => { z with z1 := z.z1 + 1 }
  | 2 => { z with z2 := z.z2 + 1 }
  | 3 => { z with z3 := z.z3 + 1 }
  | 4 => { z with z4 := z.z4 + 1 }
  | 5 => { z with z5 := z.z5 + 1 }
  | 6 => { z with z6 := z.z6 + 1 }
  | 7 => { z with z7 := z.z7 + 1 }
  | _ => z

/-- Total seconds over all seven zones. -/
def Zones.total (z : Zones) : ℕ :=
  z.z1 + z.z2 + z.z3 + z.z4 + z.z5 + z.z6 + z.z7

/-- `PWXParser._calculate_zones` (parser.py lines 322-343): one pass over the
power samples, incrementing the bucket chosen by the percent-of-FTP ladder. -/
def _calculate_zones (ftp : ℚ) (power_values : List ℚ) : Zones :=
  power_values.foldl (fun z p => addZone z (zoneOf ftp p)) ⟨0, 0, 0, 0, 0, 0, 0⟩

/-- Valid power samples extracted in `PWXParser.calculate_metrics`
(parser.py line 209): drop `None` entries and non-positive powers. -/
def power_values (trackpoints : List (Option ℚ)) : List ℚ :=
  (trackpoints.filterMap id).filter (fun p => decide (0 < p))

/-- `duration_seconds` in `PWXParser.calculate_metrics` (parser.py line 219):
the count of valid power samples. -/
def duration_seconds (trackpoints : List (Option ℚ)) : ℕ :=
  (power_values trackpoints).length

/-- Rolling 30-sample window means from `PWXParser._calculate_np`
(parser.py lines 286-288): one mean per window start `i` in
`range(len - 29)`, stride 1. -/
def rollingMeans (l : List ℚ) : List ℚ :=
  (List.range (l.length - 29)).map (fun i => mean ((l.drop i).take 30))

/-- Fourth power of the normalized power on the long-effort branch of
`_calculate_np` (parser.py line 291): `sum(p**4 for p in rolling) /
len(rolling)`. The code then takes `np_val ** 0.25`. -/
def np4 (l : List ℚ) : ℚ :=
  ((rollingMeans l).map (fun w => w ^ 4)).sum / (rollingMeans l).length

/-- `PWXParser._calculate_np` (parser.py lines 281-295): arithmetic mean for
fewer than 30 samples, otherwise the 4th root of the averaged 4th powers of
the rolling 30-sample means. -/
noncomputable def _calculate_np (l : List ℚ) : ℝ :=
  if l.length < 30 then ((mean l : ℚ) : ℝ)
  else ((np4 l : ℚ) : ℝ) ^ ((1:ℝ)/4)

/-- `PWXParser._calculate_decoupling` (parser.py lines 297-320): with fewer
than 2 power or HR samples return `None`; otherwise trim both series to the
shorter length, split at `mid = min_len // 2`, form EF = mean power / mean
HR on each half (`None` when the half's mean HR is not positive), and
return `((EF1 - EF2) / EF1) * 100` when `ef1 and ef2 and ef1 > 0` holds
under Python truthiness, else `None`. -/
def _calculate_decoupling (power_vals hr_vals : List ℚ) : Option ℚ :=
  if power_vals.length < 2 ∨ hr_vals.length < 2 then none
  else
    let min_len := min power_vals.length hr_vals.length
    let p := power_vals.take min_len
    let h := hr_vals.take min_len
    let mid := min_len / 2
    let first_half_hr := mean (h.take mid)
    let ef1 : Option ℚ :=
      if 0 < first_half_hr then some (mean (p.take mid) / first_half_hr)
      else none
    let second_half_hr := mean (h.drop mid)
    let ef2 : Option ℚ :=
      if 0 < second_half_hr then some (mean (p.drop mid) / second_half_hr)
      else none
    if truthy ef1 ∧ truthy ef2 ∧ 0 < ef1.getD 0 then
      some ((ef1.getD 0 - ef2.getD 0) / ef1.getD 0 * 100)
    else none

/-- Decoupling exactly as the specification describes it (spec section 4.1):
truncate both series to an equal, even length, split at the midpoint, each
EF requires at least 2 samples and a non-zero mean heart rate, and the
result is null whenever either EF is undefined. Written from the spec's
words to compare against `_calculate_decoupling`. -/
def decoupling_spec (power_vals hr_vals : List ℚ) : Option ℚ :=
  let n := 2 * (min power_vals.length hr_vals.length / 2)
  let p := power_vals.take n
  let h := hr_vals.take n
  let mid := n / 2
  let ef1 : Option ℚ :=
    if 2 ≤ mid ∧ mean (h.take mid) ≠ 0 then
      some (mean (p.take mid) / mean (h.take mid))
    else none
  let ef2 : Option ℚ :=
    if 2 ≤ n - mid ∧ mean (h.drop mid) ≠ 0 then
      some (mean (p.drop mid) / mean (h.drop mid))
    else none
  match ef1, ef2 with
  | some e1, some e2 => some ((e1 - e2) / e1 * 100)
  | _, _ => none

/-! ## Load State Tracker: `scripts/build_readiness_model.py` -/

/-- Shared exponential-moving-average loop of `calculate_ctl` and
`calculate_atl` (build_readiness_model.py lines 122-145): each day appends
`tss * (1 - decay) + prev * decay`, treating a missing TSS as 0. -/
def emaAux (decay : ℝ) : ℝ → List (Option ℝ) → List ℝ
  | _, [] => []
  | prev, t :: rest =>
    let v := t.getD 0 * (1 - decay) + prev * decay
    v :: emaAux decay v rest

/-- Chronic load decay `math.exp(-1/42)` (build_readiness_model.py
line 125). -/
noncomputable def ctl_decay : ℝ := Real.exp (-1/42)

/-- Acute load decay `math.exp(-1/7)` (build_readiness_model.py
line 138). -/
noncomputable def atl_decay : ℝ := Real.exp (-1/7)

/-- `calculate_ctl` (build_readiness_model.py lines 122-132): the list
starts at `start_value` (the series' first TSS is not consumed) and each
later day applies the 42-day decay recurrence. -/
noncomputable def calculate_ctl
    (tss : List (Option ℝ)) (start_value : ℝ) : List ℝ :=
  start_value :: emaAux ctl_decay start_value tss.tail

/-- `calculate_atl` (build_readiness_model.py lines 135-145): same loop
with the 7-day decay. -/
noncomputable def calculate_atl
    (tss : List (Option ℝ)) (start_value : ℝ) : List ℝ :=
  start_value :: emaAux atl_decay start_value tss.tail

/-- Load-state columns produced by `engineer_features`. -/
structure LoadState where
  CTL : List ℝ
  ATL : List ℝ
  TSB : List ℝ

/-- Load-state part of `engineer_features` (build_readiness_model.py lines
160-168): fill missing TSS with 0, compute CTL and ATL from start value 50,
then TSB as the elementwise difference CTL - ATL. -/
noncomputable def engineer_features (tss : List (Option ℝ)) : LoadState :=
  let filled := tss.map (fun t => some (t.getD 0))
  let ctl := calculate_ctl filled 50
  let atl := calculate_atl filled 50
  { CTL := ctl, ATL := atl, TSB := List.zipWith (fun a b => a - b) ctl atl }

/-! ## Impulse-Response Fitter guards: `scripts/build_trainability_model.py`
and `scripts/fetch_peak_powers.py` -/

/-- Fitted Banister parameter record (tau1, tau2, k1, optional k2, p0). -/
structure BanisterFit where
  tau1 : ℚ
  tau2 : ℚ
  k1 : ℚ
  k2 : Option ℚ
  p0 : ℚ
  deriving DecidableEq, Repr

/-- `data['Performance'].notna().sum()`: the number of non-missing
performance points in the aligned series. -/
def perf_count (performance : List (Option ℚ)) : ℕ :=
  (performance.filter Option.isSome).length

/-- `run_banister_model` (build_trainability_model.py lines 269-277): below
10 performance points it raises `ValueError` (modelled as `Except.error`)
before any fitting. The scipy `minimize` call is external code; its fitted
parameters enter as the `fit` argument consumed only on the success path. -/
def run_banister_model (fit : BanisterFit) (performance : List (Option ℚ)) :
    Except String BanisterFit :=
  if perf_count performance < 10 then
    Except.error "Not enough performance data points. Need at least 10."
  else Except.ok fit

/-- `run_banister_with_peaks` (fetch_peak_powers.py lines 152-182): below 15
performance points it prints a message and returns `None` — it does not
raise. A normal return is `Except.ok`; the optimizer is abstracted as in
`run_banister_model`. -/
def run_banister_with_peaks
    (fit : BanisterFit) (performance : List (Option ℚ)) :
    Except String (Option BanisterFit) :=
  if perf_count performance < 15 then Except.ok none
  else Except.ok (some fit)

/-! ## Weekly Intent Planner: `scripts/generate_weekly_intent.py` -/

/-- Fatigue adjustment table in `calculate_key_sessions_target`
(generate_weekly_intent.py lines 132-137); unknown statuses give 0 via
`dict.get(status, 0)`. -/
def fatigue_adjustment (fatigue_status : String) : ℤ :=
  if fatigue_status = "fresh" then 1
  else if fatigue_status = "normal" then 0
  else if fatigue_status = "tired" then -1
  else if fatigue_status = "exhausted" then -2
  else 0

/-- Readiness adjustment table in `calculate_key_sessions_target`
(generate_weekly_intent.py lines 140-145). -/
def readiness_adjustment (readiness_status : String) : ℤ :=
  if readiness_status = "high" then 0
  else if readiness_status = "moderate" then 0
  else if readiness_status = "low" then -1
  else if readiness_status = "very_low" then -2
  else 0

/-- Phase limit table in `calculate_key_sessions_target`
(generate_weekly_intent.py lines 148-154); unknown phases give 2 via
`dict.get(phase, 2)`. -/
def phase_limit (phase : String) : ℤ :=
  if phase = "base" then 2
  else if phase = "build" then 3
  else if phase = "peak" then 2
  else if phase = "taper" then 1
  else if phase = "recovery" then 0
  else 2

/-- `calculate_key_sessions_target` (generate_weekly_intent.py lines
121-172) with the default configuration `base_key_sessions = 2`:
base plus both adjustments, capped by the phase limit, floored at 0. -/
def calculate_key_sessions_target
    (fatigue_status readiness_status phase : String) : ℤ :=
  let base : ℤ := 2
  let adjustment := fatigue_adjustment fatigue_status
    + readiness_adjustment readiness_status
  let target := base + adjustment
  let target := min target (phase_limit phase)
  max 0 target

/-! ## Readiness Scorer and Health Gates: `scripts/calculate_readiness.py` -/

/-- Value of a numeric JSON leaf as the Python dict sees it: the key may be
absent, present with `null`, or present with a number. `dict.get(key)` and
`dict.get(key, default)` treat the first two differently. -/
inductive JsonNum where
  | absent : JsonNum
  | null : JsonNum
  | val (q : ℚ) : JsonNum
  deriving DecidableEq, Repr

/-- Python `dict.get(key)`: `None` for an absent key or a `null` value. -/
def JsonNum.get : JsonNum → Option ℚ
  | .absent => none
  | .null => none
  | .val q => some q

/-- Python `dict.get(key, d)`: the default only replaces an absent key; an
explicit `null` still comes back as `None`. -/
def JsonNum.getD : JsonNum → ℚ → Option ℚ
  | .absent, d => some d
  | .null, _ => none
  | .val q, _ => some q

/-- Relevant leaves of `athlete_state.json` as read by `calculate_readiness`
and `check_health_gates`. Numeric leaves read through both `get` and
`get(key, default)` are kept as `JsonNum`; leaves only read through `get`
are `Option ℚ`. `recovery_baseline`, `soreness_level` and
`life_stress_level` carry the already-extracted numeric (their defaults
65, 0 and 3 stand in for an absent key; an explicit JSON `null` there would
crash the Python script on a comparison, so it is outside the model).
String leaves carry their extraction defaults `"stable"`, `"low"` the same
way. -/
structure AthleteState where
  hrv_current : Option ℚ
  hrv_baseline : JsonNum
  rhr_current : Option ℚ
  rhr_baseline : JsonNum
  sleep_last_night : Option ℚ
  sleep_avg_7d : Option ℚ
  recovery_current : Option ℚ
  recovery_baseline : ℚ
  tsb : Option ℚ
  whoop_hrv : Option ℚ
  whoop_sleep_hours : Option ℚ
  whoop_recovery_score : Option ℚ
  whoop_resting_hr : Option ℚ
  weight_trend : String
  injury_signals : List String
  soreness_level : ℚ
  soreness_asymmetry : Bool
  life_stress_level : ℚ
  cognitive_fatigue : String
  deriving DecidableEq, Repr

/-- An athlete state containing no physiological data at all: every optional
leaf is missing and every defaulted leaf holds its extraction default. -/
def emptyState : AthleteState where
  hrv_current := none
  hrv_baseline := .absent
  rhr_current := none
  rhr_baseline := .absent
  sleep_last_night := none
  sleep_avg_7d := none
  recovery_current := none
  recovery_baseline := 65
  tsb := none
  whoop_hrv := none
  whoop_sleep_hours := none
  whoop_recovery_score := none
  whoop_resting_hr := none
  weight_trend := "stable"
  injury_signals := []
  soreness_level := 0
  soreness_asymmetry := false
  life_stress_level := 3
  cognitive_fatigue := "low"

/-- `calculate_hrv_contribution` (calculate_readiness.py lines 66-109),
returning the pair (contribution, impact). Weight is a parameter; target
bands are percent of baseline. -/
def calculate_hrv_contribution
    (current baseline : Option ℚ) (weight : ℚ) : ℚ × String :=
  match current, baseline with
  | none, _ => (0, "unknown")
  | _, none => (0, "unknown")
  | some c, some b =>
    if b = 0 then (0, "unknown")
    else
      let pct := c / b * 100
      let sc : ℚ × String :=
        if 100 ≤ pct then (100, "positive")
        else if 90 ≤ pct then (80 + (pct - 90) * 2, "neutral")
        else if 80 ≤ pct then (60 + (pct - 80) * 2, "slight_negative")
        else if 70 ≤ pct then (40 + (pct - 70) * 2, "moderate_negative")
        else (max 0 (pct * (57/100)), "severe_negative")
      (sc.1 / 100 * weight * 100, sc.2)

/-- `calculate_sleep_contribution` (calculate_readiness.py lines 112-168):
last-night hours against the fixed target, with a 10% cut when the 7-day
cumulative debt exceeds 5 hours. -/
def calculate_sleep_contribution
    (last_night avg_7d : Option ℚ) (target weight : ℚ) : ℚ × String :=
  match last_night with
  | none => (0, "unknown")
  | some ln =>
    let pct := ln / target * 100
    let debt_hours : ℚ :=
      match avg_7d with
      | none => 0
      | some a => max 0 ((target - a) * 7)
    let sc : ℚ × String :=
      if 100 ≤ pct then (100, "positive")
      else if (175/2) ≤ pct then (80 + (pct - 175/2) * (16/10), "neutral")
      else if 75 ≤ pct then (50 + (pct - 75) * (24/10), "slight_negative")
      else (max 0 (pct * (67/100)), "moderate_negative")
    let score := if 5 < debt_hours then sc.1 * (9/10) else sc.1
    (score / 100 * weight * 100, sc.2)

/-- `calculate_recovery_contribution` (calculate_readiness.py lines
171-211): the WHOOP 0-100 recovery score against the baseline expectation. -/
def calculate_recovery_contribution
    (current : Option ℚ) (baseline weight : ℚ) : ℚ × String :=
  match current with
  | none => (0, "unknown")
  | some c =>
    let sc : ℚ × String :=
      if baseline ≤ c then (min 100 (70 + (c - baseline)), "positive")
      else if baseline * (8/10) ≤ c then
        (50 + (c - baseline * (8/10)) / (baseline * (2/10)) * 20, "neutral")
      else if baseline * (6/10) ≤ c then
        (30 + (c - baseline * (6/10)) / (baseline * (2/10)) * 20,
          "slight_negative")
      else if baseline * (4/10) ≤ c then
        (10 + (c - baseline * (4/10)) / (baseline * (2/10)) * 20,
          "moderate_negative")
      else (max 0 (c / baseline * 10), "severe_negative")
    (sc.1 / 100 * weight * 100, sc.2)

/-- `calculate_tsb_contribution` (calculate_readiness.py lines 214-262) with
the default optimal range (-5..15, worst -30/30). -/
def calculate_tsb_contribution (tsb : Option ℚ) (weight : ℚ) : ℚ × String :=
  match tsb with
  | none => (0, "unknown")
  | some t =>
    let sc : ℚ × String :=
      if -5 ≤ t ∧ t ≤ 15 then (100, "positive")
      else if t < -5 then
        if -30 ≤ t then
          (100 * (t - (-30)) / (-5 - (-30)),
            if (-5 + (-30)) / 2 ≤ t then "slight_negative"
            else "moderate_negative")
        else (0, "severe_negative")
      else
        if t ≤ 30 then (100 - 30 * (t - 15) / (30 - 15), "slight_negative")
        else (70, "neutral")
    (sc.1 / 100 * weight * 100, sc.2)

/-- `calculate_rhr_contribution` (calculate_readiness.py lines 265-307):
percent elevation of resting heart rate over baseline. -/
def calculate_rhr_contribution
    (current baseline : Option ℚ) (weight : ℚ) : ℚ × String :=
  match current, baseline with
  | none, _ => (0, "unknown")
  | _, none => (0, "unknown")
  | some c, some b =>
    if b = 0 then (0, "unknown")
    else
      let pct := (c - b) / b * 100
      let sc : ℚ × String :=
        if pct ≤ 0 then (100, "positive")
        else if pct ≤ 5 then (90 - pct * 2, "neutral")
        else if pct ≤ 10 then (80 - (pct - 5) * 4, "slight_negative")
        else if pct ≤ 15 then (60 - (pct - 10) * 4, "moderate_negative")
        else (max 0 (40 - (pct - 15) * 2), "severe_negative")
      (sc.1 / 100 * weight * 100, sc.2)

/-- Gate outcome of `check_health_gates` (calculate_readiness.py lines
314-467): the five per-gate pass flags, the autonomic percentages, the ordered
list of marginal gate names and the aggregate verdict. -/
structure HealthGates where
  sleep_pass : Bool
  energy_pass : Bool
  autonomic_pass : Bool
  msk_pass : Bool
  stress_pass : Bool
  hrv_pct : ℚ
  rhr_pct : ℚ
  gates_marginal : List String
  all_gates_pass : Bool
  intensity_recommendation : String
  deriving DecidableEq, Repr

/-- Autonomic percentage of baseline as computed on calculate_readiness.py
lines 374-375: `(cur / base * 100) if cur and base else 100`, where Python
truthiness makes `None` and `0` both fall back to 100. -/
def pct_or_100 (cur bas : Option ℚ) : ℚ :=
  if truthy cur ∧ truthy bas then cur.getD 0 / bas.getD 0 * 100 else 100

/-- `check_health_gates` (calculate_readiness.py lines 314-467) with the
default gate thresholds (sleep 7.0h, HRV ≥80% of baseline, RHR ≤110%,
soreness ≤7, stress ≤7). Marginal names are collected in evaluation order;
the stress gate is appended at most once. -/
def check_health_gates (s : AthleteState) : HealthGates :=
  let sleep_pass :=
    match s.sleep_last_night with
    | none => true
    | some h => !decide (h < 7)
  let sleep_marginal :=
    match s.sleep_last_night with
    | none => false
    | some h => !decide (h < 7) && decide (h < 7 + 1/2)
  let energy_pass := !decide (s.weight_trend = "declining_fast")
  let energy_marginal := decide (s.weight_trend = "declining")
  let hrv_pct := pct_or_100 s.hrv_current s.hrv_baseline.get
  let rhr_pct := pct_or_100 s.rhr_current s.rhr_baseline.get
  let autonomic_pass := !decide (hrv_pct < 80) && !decide (110 < rhr_pct)
  let autonomic_marginal := !decide (hrv_pct < 80) && decide (hrv_pct < 90)
  let msk_pass :=
    decide (s.injury_signals.length = 0) && !decide (7 < s.soreness_level)
  let msk_marginal :=
    msk_pass && (s.soreness_asymmetry || decide (7 - 2 < s.soreness_level))
  let stress_pass :=
    !decide (7 < s.life_stress_level) && !decide (s.cognitive_fatigue = "high")
  let stress_marginal :=
    (!decide (7 < s.life_stress_level) && decide (7 - 2 < s.life_stress_level))
      || decide (s.cognitive_fatigue = "moderate")
  let marginal :=
    (if sleep_marginal then ["sleep"] else [])
      ++ (if energy_marginal then ["energy"] else [])
      ++ (if autonomic_marginal then ["autonomic"] else [])
      ++ (if msk_marginal then ["musculoskeletal"] else [])
      ++ (if stress_marginal then ["stress"] else [])
  let all_pass :=
    sleep_pass && energy_pass && autonomic_pass && msk_pass && stress_pass
  let intensity :=
    if !all_pass then "recovery_only"
    else if 2 ≤ marginal.length then "low"
    else if marginal.length = 1 then "moderate"
    else "full"
  { sleep_pass := sleep_pass
    energy_pass := energy_pass
    autonomic_pass := autonomic_pass
    msk_pass := msk_pass
    stress_pass := stress_pass
    hrv_pct := hrv_pct
    rhr_pct := rhr_pct
    gates_marginal := marginal
    all_gates_pass := all_pass
    intensity_recommendation := intensity }

/-- Readiness output of `calculate_readiness` (calculate_readiness.py lines
474-599). `final_score` is the unrounded clamped value the script compares
against the thresholds; the script additionally stores `round(final_score)`
for display. -/
structure ReadinessResult where
  raw_score : ℚ
  gate_penalty : ℚ
  final_score : ℚ
  recommendation : String
  key_session_eligible : Bool
  session_type_allowed : String
  health_gates : HealthGates
  deriving DecidableEq, Repr

/-- `calculate_readiness` (calculate_readiness.py lines 474-599) with the
default configuration: weights 0.25/0.20/0.20/0.20/0.15, thresholds 65/40,
sleep target 8h, baselines defaulting to 45 (HRV), 65 (recovery), 52 (RHR).
Current readings fall back to the WHOOP daily values through Python `or`. -/
def calculate_readiness (s : AthleteState) : ReadinessResult :=
  let hrv_current := pyOr s.hrv_current s.whoop_hrv
  let hrv_baseline := s.hrv_baseline.getD 45
  let sleep_last := pyOr s.sleep_last_night s.whoop_sleep_hours
  let recovery_current := pyOr s.recovery_current s.whoop_recovery_score
  let rhr_current := pyOr s.rhr_current s.whoop_resting_hr
  let rhr_baseline := s.rhr_baseline.getD 52
  let hrv_contrib := calculate_hrv_contribution hrv_current hrv_baseline (1/4)
  let sleep_contrib :=
    calculate_sleep_contribution sleep_last s.sleep_avg_7d 8 (1/5)
  let recovery_contrib :=
    calculate_recovery_contribution recovery_current s.recovery_baseline (1/5)
  let tsb_contrib := calculate_tsb_contribution s.tsb (1/5)
  let rhr_contrib := calculate_rhr_contribution rhr_current rhr_baseline (3/20)
  let raw_score := hrv_contrib.1 + sleep_contrib.1 + recovery_contrib.1
    + tsb_contrib.1 + rhr_contrib.1
  let health_gates := check_health_gates s
  let gate_penalty : ℚ :=
    if health_gates.all_gates_pass = false then 20
    else if 2 ≤ health_gates.gates_marginal.length then 10
    else if health_gates.gates_marginal.length = 1 then 5
    else 0
  let final_score := max 0 (min 100 (raw_score - gate_penalty))
  let base : String × Bool × String :=
    if 65 ≤ final_score then ("green", true, "key")
    else if 40 ≤ final_score then ("yellow", false, "support")
    else ("red", false, "recovery")
  let verdict :=
    if health_gates.all_gates_pass then base else ("red", false, "recovery")
  { raw_score := raw_score
    gate_penalty := gate_penalty
    final_score := final_score
    recommendation := verdict.1
    key_session_eligible := verdict.2.1
    session_type_allowed := verdict.2.2
    health_gates := health_gates }

/-! ## Theorems -/

/-- Total zone seconds equal the number of samples: adding one sample
increments exactly one bucket. -/
theorem total_addZone_zoneOf (z : Zones) (ftp p : ℚ) :
    (addZone z (zoneOf ftp p)).total = z.total + 1 := by
  unfold zoneOf
  repeat' split
  all_goals simp [addZone, Zones.total] <;> omega

/-- Folding zone accumulation over any sample list adds the list length to
the running total. -/
theorem total_foldl_addZone (ftp : ℚ) (l : List ℚ) (z : Zones) :
    (l.foldl (fun z p => addZone z (zoneOf ftp p)) z).total
      = z.total + l.length := by
  induction l generalizing z with
  | nil => simp
  | cons p rest ih =>
    simp only [List.foldl_cons, List.length_cons, ih, total_addZone_zoneOf]
    omega

/-- C7: for every FTP > 0 and every list of valid (positive) power samples,
the seven zone second counts produced by `_calculate_zones` sum exactly to
`duration_seconds`, the count of valid power samples. -/
theorem zones_sum_to_duration (ftp : ℚ) (hftp : 0 < ftp)
    (trackpoints : List (Option ℚ)) :
    (_calculate_zones ftp (power_values trackpoints)).total
      = duration_seconds trackpoints := by
  unfold _calculate_zones duration_seconds
  rw [total_foldl_addZone]
  simp [Zones.total]

/-- Witness for C7: FTP 200 with samples `[100, None, 0, 250]` keeps the two
valid samples and the zone seconds sum to 2. -/
theorem zones_sum_to_duration_witness :
    (0:ℚ) < 200 ∧
      (_calculate_zones 200 (power_values [some 100, none, some 0, some 250])).total
        = duration_seconds [some 100, none, some 0, some 250] :=
  ⟨by norm_num,
   zones_sum_to_duration 200 (by norm_num) [some 100, none, some 0, some 250]⟩

/-- Cauchy-Schwarz for a list: the squared sum is at most the length times
the sum of squares. -/
theorem list_sq_sum_le (l : List ℚ) :
    l.sum ^ 2 ≤ l.length * (l.map (fun x => x ^ 2)).sum := by
  induction l with
  | nil => simp
  | cons a s ih =>
    simp only [List.sum_cons, List.map_cons, List.length_cons]
    push_cast
    have hq : (0:ℚ) ≤ (s.map (fun x => x ^ 2)).sum := by
      apply List.sum_nonneg
      intro x hx
      rcases List.mem_map.mp hx with ⟨y, _, rfl⟩
      positivity
    rcases eq_or_ne s [] with rfl | hne
    · simp
    · have hlen : (1:ℚ) ≤ s.length := by
        have := List.length_pos.mpr hne
        exact_mod_cast this
      have h2 : 2 * (s.length:ℚ) * a * s.sum
          ≤ (s.length:ℚ) ^ 2 * a ^ 2 + s.sum ^ 2 := by
        nlinarith [sq_nonneg ((s.length:ℚ) * a - s.sum)]
      have h3 : ((s.length:ℚ) + 1) * s.sum ^ 2
          ≤ ((s.length:ℚ) + 1) * ((s.length:ℚ)
            * (s.map (fun x => x ^ 2)).sum) := by
        apply mul_le_mul_of_nonneg_left ih (by linarith)
      have key : (s.length:ℚ) * ((a + s.sum) ^ 2)
          ≤ (s.length:ℚ) * (((s.length:ℚ) + 1)
            * (a ^ 2 + (s.map (fun x => x ^ 2)).sum)) := by
        nlinarith [h2, h3, hq]
      exact le_of_mul_le_mul_left key (by linarith)

/-- Fourth-power variant: the 4th power of the sum is at most the cube of
the length times the sum of 4th powers (two applications of
`list_sq_sum_le`). -/
theorem list_pow4_sum_le (l : List ℚ) :
    l.sum ^ 4 ≤ ((l.length : ℚ)) ^ 3 * (l.map (fun x => x ^ 4)).sum := by
  have h1 := list_sq_sum_le l
  have h2 := list_sq_sum_le (l.map (fun x => x ^ 2))
  rw [List.length_map, List.map_map] at h2
  have hmm : l.map ((fun x => x ^ 2) ∘ fun x => x ^ 2)
      = l.map (fun x => x ^ 4) := by
    apply List.map_congr_left
    intro x _
    simp only [Function.comp]
    ring
  rw [hmm] at h2
  have hS2 : (0:ℚ) ≤ l.sum ^ 2 := sq_nonneg _
  calc l.sum ^ 4 = (l.sum ^ 2) ^ 2 := by ring
    _ ≤ ((l.length:ℚ) * (l.map (fun x => x ^ 2)).sum) ^ 2 :=
        pow_le_pow_left hS2 h1 2
    _ = (l.length:ℚ) ^ 2 * ((l.map (fun x => x ^ 2)).sum) ^ 2 := by ring
    _ ≤ (l.length:ℚ) ^ 2
        * ((l.length:ℚ) * (l.map (fun x => x ^ 4)).sum) := by
        apply mul_le_mul_of_nonneg_left h2 (by positivity)
    _ = (l.length:ℚ) ^ 3 * (l.map (fun x => x ^ 4)).sum := by ring

/-- Power-mean step: the 4th power of the mean of a nonempty list is at
most the mean of the 4th powers. -/
theorem mean_pow4_le (W : List ℚ) (hW : W ≠ []) :
    mean W ^ 4 ≤ (W.map (fun x => x ^ 4)).sum / W.length := by
  have hm : (0:ℚ) < W.length := by exact_mod_cast List.length_pos.mpr hW
  rw [mean, div_pow, div_le_div_iff (by positivity) hm]
  calc W.sum ^ 4 * (W.length:ℚ)
      ≤ ((W.length:ℚ) ^ 3 * (W.map (fun x => x ^ 4)).sum)
          * (W.length:ℚ) :=
        mul_le_mul_of_nonneg_right (list_pow4_sum_le W) (le_of_lt hm)
    _ = (W.map (fun x => x ^ 4)).sum * ((W.length:ℚ)) ^ 4 := by ring

/-- Mean of a list of nonnegative rationals is nonnegative. -/
theorem mean_nonneg (l : List ℚ) (h : ∀ x ∈ l, 0 ≤ x) : 0 ≤ mean l := by
  unfold mean
  exact div_nonneg (List.sum_nonneg h) (by positivity)

/-- Rolling window means of a positive sample list are nonnegative. -/
theorem rollingMeans_nonneg (l : List ℚ) (hpos : ∀ p ∈ l, 0 < p) :
    ∀ w ∈ rollingMeans l, 0 ≤ w := by
  intro w hw
  rcases List.mem_map.mp hw with ⟨i, _, rfl⟩
  apply mean_nonneg
  intro x hx
  exact le_of_lt (hpos x (List.drop_subset i l (List.take_subset 30 _ hx)))

/-- Power sample list on which normalized power falls below the arithmetic
mean: one extreme first sample followed by 30 small ones. The edge sample
appears in only two of the sliding windows, so the window means sit far
below the overall mean. -/
def npCounterList : List ℚ := 100 :: List.replicate 30 1

set_option maxRecDepth 4000 in
/-- Value of the averaged 4th powers of the window means on
`npCounterList`: the two windows have means 43/10 and 1. -/
theorem np4_npCounterList : np4 npCounterList = 3428801/20000 := by
  norm_num [np4, rollingMeans, mean, npCounterList, List.replicate_succ,
    List.range_succ]

set_option maxRecDepth 4000 in
/-- Arithmetic mean of `npCounterList`. -/
theorem mean_npCounterList : mean npCounterList = 130/31 := by
  norm_num [mean, npCounterList, List.replicate_succ]

/-- Counterexample to C1 as stated: `npCounterList` has 31 positive
samples, yet its normalized power (4th root of 3428801/20000, about 28.8)
is strictly below its arithmetic mean 130/31 (about 4.19 to the 4th power;
the mean's 4th power is 285610000/923521, about 309). -/
theorem np_ge_mean_counterexample :
    (∀ p ∈ npCounterList, (0:ℚ) < p) ∧ 30 ≤ npCounterList.length ∧
      _calculate_np npCounterList < ((mean npCounterList : ℚ) : ℝ) := by
  refine ⟨by decide, by decide, ?_⟩
  have hq : np4 npCounterList < mean npCounterList ^ 4 := by
    rw [np4_npCounterList, mean_npCounterList]
    norm_num
  have hB0 : (0:ℚ) ≤ np4 npCounterList := by
    rw [np4_npCounterList]
    norm_num
  have hA0 : (0:ℚ) ≤ mean npCounterList := by
    rw [mean_npCounterList]
    norm_num
  unfold _calculate_np
  rw [if_neg (by decide)]
  have hA0R : (0:ℝ) ≤ ((mean npCounterList : ℚ) : ℝ) := by exact_mod_cast hA0
  have step1 : ((mean npCounterList : ℚ) : ℝ)
      = (((mean npCounterList : ℚ) : ℝ) ^ (4:ℕ)) ^ ((1:ℝ)/4) := by
    rw [← Real.rpow_natCast ((mean npCounterList : ℚ) : ℝ) 4,
      ← Real.rpow_mul hA0R]
    norm_num
  rw [step1]
  apply Real.rpow_lt_rpow (by exact_mod_cast hB0) ?_ (by norm_num)
  exact_mod_cast hq

/-- C1 (amended): for at least 30 positive power samples, the normalized
power returned by `_calculate_np` is at least the arithmetic mean of the
30-sample sliding-window means (the power-mean inequality applies to the
window means; the counterexample shows it can fall below the mean of the
full sample list). -/
theorem np_ge_rolling_mean (l : List ℚ) (hpos : ∀ p ∈ l, 0 < p)
    (hlen : 30 ≤ l.length) :
    ((mean (rollingMeans l) : ℚ) : ℝ) ≤ _calculate_np l := by
  have hne : rollingMeans l ≠ [] := by
    apply List.length_pos.mp
    simp only [rollingMeans, List.length_map, List.length_range]
    omega
  have hq : mean (rollingMeans l) ^ 4 ≤ np4 l := mean_pow4_le _ hne
  have hA0 : (0:ℚ) ≤ mean (rollingMeans l) :=
    mean_nonneg _ (rollingMeans_nonneg l hpos)
  have hA0R : (0:ℝ) ≤ ((mean (rollingMeans l) : ℚ) : ℝ) := by
    exact_mod_cast hA0
  unfold _calculate_np
  rw [if_neg (by omega)]
  have step1 : ((mean (rollingMeans l) : ℚ) : ℝ)
      = (((mean (rollingMeans l) : ℚ) : ℝ) ^ (4:ℕ)) ^ ((1:ℝ)/4) := by
    rw [← Real.rpow_natCast ((mean (rollingMeans l) : ℚ) : ℝ) 4,
      ← Real.rpow_mul hA0R]
    norm_num
  rw [step1]
  apply Real.rpow_le_rpow (by positivity) ?_ (by norm_num)
  exact_mod_cast hq

/-- Witness for C1 (amended): 30 constant samples of 2 watts. -/
theorem np_ge_rolling_mean_witness :
    (∀ p ∈ List.replicate 30 (2:ℚ), (0:ℚ) < p) ∧
      30 ≤ (List.replicate 30 (2:ℚ)).length ∧
      ((mean (rollingMeans (List.replicate 30 (2:ℚ))) : ℚ) : ℝ)
        ≤ _calculate_np (List.replicate 30 (2:ℚ)) :=
  ⟨by decide, by decide, np_ge_rolling_mean _ (by decide) (by decide)⟩

/-- The 42-day decay constant is positive. -/
theorem ctl_decay_pos : 0 < ctl_decay :=
  Real.exp_pos _

/-- The 42-day decay constant is below one. -/
theorem ctl_decay_lt_one : ctl_decay < 1 := by
  unfold ctl_decay
  rw [Real.exp_lt_one_iff]
  norm_num

/-- With a constant input T, one EMA step from below T stays below T and
moves upward, so the whole chain from any point below T is ascending. -/
theorem emaAux_const_chain_le (d T : ℝ) (hd0 : 0 ≤ d) (hd1 : d ≤ 1) :
    ∀ (m : ℕ) (prev : ℝ), prev ≤ T →
      List.Chain (· ≤ ·) prev (emaAux d prev (List.replicate m (some T))) := by
  intro m
  induction m with
  | zero =>
    intro prev _
    simp [emaAux]
  | succ k ih =>
    intro prev h
    simp only [List.replicate_succ, emaAux, Option.getD_some]
    exact List.Chain.cons (by nlinarith) (ih _ (by nlinarith))

/-- With a constant input T, every value of the EMA chain started below T
stays at most T. -/
theorem emaAux_const_le (d T : ℝ) (hd0 : 0 ≤ d) (hd1 : d ≤ 1) :
    ∀ (m : ℕ) (prev : ℝ), prev ≤ T →
      ∀ x ∈ emaAux d prev (List.replicate m (some T)), x ≤ T := by
  intro m
  induction m with
  | zero =>
    intro prev _ x hx
    simp [emaAux] at hx
  | succ k ih =>
    intro prev h x hx
    simp only [List.replicate_succ, emaAux, Option.getD_some,
      List.mem_cons] at hx
    rcases hx with rfl | hx
    · nlinarith
    · exact ih _ (by nlinarith) x hx

/-- Descending counterpart of `emaAux_const_chain_le`. -/
theorem emaAux_const_chain_ge (d T : ℝ) (hd0 : 0 ≤ d) (hd1 : d ≤ 1) :
    ∀ (m : ℕ) (prev : ℝ), T ≤ prev →
      List.Chain (· ≥ ·) prev (emaAux d prev (List.replicate m (some T))) := by
  intro m
  induction m with
  | zero =>
    intro prev _
    simp [emaAux]
  | succ k ih =>
    intro prev h
    simp only [List.replicate_succ, emaAux, Option.getD_some]
    exact List.Chain.cons (by nlinarith) (ih _ (by nlinarith))

/-- Descending counterpart of `emaAux_const_le`. -/
theorem emaAux_const_ge (d T : ℝ) (hd0 : 0 ≤ d) (hd1 : d ≤ 1) :
    ∀ (m : ℕ) (prev : ℝ), T ≤ prev →
      ∀ x ∈ emaAux d prev (List.replicate m (some T)), T ≤ x := by
  intro m
  induction m with
  | zero =>
    intro prev _ x hx
    simp [emaAux] at hx
  | succ k ih =>
    intro prev h x hx
    simp only [List.replicate_succ, emaAux, Option.getD_some,
      List.mem_cons] at hx
    rcases hx with rfl | hx
    · nlinarith
    · exact ih _ (by nlinarith) x hx

/-- C4: under a constant daily TSS value T, the CTL sequence produced by
`calculate_ctl` converges monotonically toward T without overshoot: started
at or below T it is nondecreasing (adjacent pairs ascend) and bounded above
by T at every index; started at or above T it is nonincreasing and bounded
below by T. -/
theorem ctl_const_monotone_no_overshoot (T start_value : ℝ) (n : ℕ) :
    (start_value ≤ T →
      List.Chain' (· ≤ ·)
          (calculate_ctl (List.replicate n (some T)) start_value) ∧
        ∀ x ∈ calculate_ctl (List.replicate n (some T)) start_value,
          x ≤ T) ∧
      (T ≤ start_value →
        List.Chain' (· ≥ ·)
            (calculate_ctl (List.replicate n (some T)) start_value) ∧
          ∀ x ∈ calculate_ctl (List.replicate n (some T)) start_value,
            T ≤ x) := by
  have hd0 : (0:ℝ) ≤ ctl_decay := le_of_lt ctl_decay_pos
  have hd1 : ctl_decay ≤ 1 := le_of_lt ctl_decay_lt_one
  have htail : (List.replicate n (some T)).tail
      = List.replicate (n - 1) (some T) := by
    cases n <;> simp
  constructor
  · intro h
    constructor
    · show List.Chain (· ≤ ·) start_value _
      rw [htail]
      exact emaAux_const_chain_le ctl_decay T hd0 hd1 _ _ h
    · intro x hx
      rcases List.mem_cons.mp hx with rfl | hx
      · exact h
      · rw [htail] at hx
        exact emaAux_const_le ctl_decay T hd0 hd1 _ _ h x hx
  · intro h
    constructor
    · show List.Chain (· ≥ ·) start_value _
      rw [htail]
      exact emaAux_const_chain_ge ctl_decay T hd0 hd1 _ _ h
    · intro x hx
      rcases List.mem_cons.mp hx with rfl | hx
      · exact h
      · rw [htail] at hx
        exact emaAux_const_ge ctl_decay T hd0 hd1 _ _ h x hx

/-- Witness for C4: starting CTL 50 under constant TSS 60 gives an
ascending chain. -/
theorem ctl_const_monotone_witness :
    (50:ℝ) ≤ 60 ∧
      List.Chain' (· ≤ ·) (calculate_ctl (List.replicate 2 (some 60)) 50) :=
  ⟨by norm_num,
   ((ctl_const_monotone_no_overshoot 60 50 2).1 (by norm_num)).1⟩

/-- Elementwise difference of two real lists read through `getD`. -/
theorem getD_zipWith_sub (l1 l2 : List ℝ) (i : ℕ)
    (h : i < (List.zipWith (fun a b => a - b) l1 l2).length) :
    (List.zipWith (fun a b => a - b) l1 l2).getD i 0
      = l1.getD i 0 - l2.getD i 0 := by
  have hlen := h
  rw [List.length_zipWith] at hlen
  rw [List.getD_eq_getElem _ _ h,
    List.getD_eq_getElem _ _ (lt_of_lt_of_le hlen (min_le_left _ _)),
    List.getD_eq_getElem _ _ (lt_of_lt_of_le hlen (min_le_right _ _)),
    List.getElem_zipWith]

/-- C8: the load state produced by `engineer_features` satisfies
`TSB[i] = CTL[i] - ATL[i]` exactly at every index. -/
theorem tsb_eq_ctl_sub_atl (tss : List (Option ℝ)) (i : ℕ)
    (h : i < (engineer_features tss).TSB.length) :
    (engineer_features tss).TSB.getD i 0
      = (engineer_features tss).CTL.getD i 0
        - (engineer_features tss).ATL.getD i 0 := by
  simp only [engineer_features] at h ⊢
  exact getD_zipWith_sub _ _ i h

/-- Witness for C8: a two-day series has TSB[0] = CTL[0] - ATL[0]. -/
theorem tsb_eq_ctl_sub_atl_witness :
    0 < (engineer_features [some 10, some 20]).TSB.length ∧
      (engineer_features [some 10, some 20]).TSB.getD 0 0
        = (engineer_features [some 10, some 20]).CTL.getD 0 0
          - (engineer_features [some 10, some 20]).ATL.getD 0 0 :=
  ⟨by simp [engineer_features, calculate_ctl, calculate_atl, emaAux],
   tsb_eq_ctl_sub_atl [some 10, some 20] 0
     (by simp [engineer_features, calculate_ctl, calculate_atl, emaAux])⟩

/-- Concrete fitted parameter record used to instantiate the abstract
optimizer argument of the Banister entry points. -/
def fit0 : BanisterFit := ⟨42, 7, 1, some 1, 250⟩

/-- Aligned performance column with exactly 12 non-missing points. -/
def peaksPerf12 : List (Option ℚ) := List.replicate 12 (some 300)

/-- Counterexample to C5 as stated: with 12 performance points (at least 10
but fewer than 15) the stricter peak-power variant does not fail with an
error — it completes normally (returning no record). -/
theorem banister_peaks_no_hard_fail :
    perf_count peaksPerf12 < 15 ∧
      (run_banister_with_peaks fit0 peaksPerf12).isOk = true := by
  decide

/-- C5 (amended): below its floor neither Banister entry point returns a
fitted parameter record: `run_banister_model` raises (`Except.error`) below
10 points, while `run_banister_with_peaks` returns `None` without raising
below 15 points. -/
theorem banister_fit_floor
    (fit : BanisterFit) (performance : List (Option ℚ)) :
    (perf_count performance < 10 →
      run_banister_model fit performance
        = Except.error "Not enough performance data points. Need at least 10.") ∧
      (perf_count performance < 15 →
        run_banister_with_peaks fit performance = Except.ok none) := by
  constructor <;> intro h <;>
    simp [run_banister_model, run_banister_with_peaks, h]

/-- Witness for C5 (amended): 9 points make the model raise; 12 points make
the peak-power variant return `None`. -/
theorem banister_fit_floor_witness :
    perf_count (List.replicate 9 (some (1:ℚ))) < 10 ∧
      run_banister_model fit0 (List.replicate 9 (some 1))
        = Except.error "Not enough performance data points. Need at least 10." ∧
      perf_count peaksPerf12 < 15 ∧
      run_banister_with_peaks fit0 peaksPerf12 = Except.ok none :=
  ⟨by decide, (banister_fit_floor fit0 (List.replicate 9 (some 1))).1 (by decide),
   by decide, (banister_fit_floor fit0 peaksPerf12).2 (by decide)⟩

/-- Counterexample to C6 as stated: on the 3-sample pair
power `[100, 200, 300]`, HR `[100, 100, 100]` (both with at least 2
samples) the code splits 1/2 without evening the length and returns a
value, while the spec's description (even truncation, each EF from at
least 2 samples) yields null. -/
theorem decoupling_spec_counterexample :
    2 ≤ ([100, 200, 300] : List ℚ).length ∧
      2 ≤ ([100, 100, 100] : List ℚ).length ∧
      _calculate_decoupling [100, 200, 300] [100, 100, 100]
        ≠ decoupling_spec [100, 200, 300] [100, 100, 100] := by
  refine ⟨by decide, by decide, ?_⟩
  norm_num [_calculate_decoupling, decoupling_spec, mean, truthy]
  decide

/-- C6 (amended): with at least 2 samples on each side the code trims both
series to the shorter length n (not necessarily even), splits at
`mid = n / 2` (so the halves may hold a single sample and differ in size),
and with EF1, EF2 the half ratios mean power / mean HR it returns
`((EF1 - EF2) / EF1) * 100` exactly when both half mean HRs are positive,
EF1 is positive and EF2 is non-zero — and null in every other case. -/
theorem decoupling_formula (power_vals hr_vals : List ℚ) (n mid : ℕ)
    (ef1 ef2 : ℚ)
    (hp : 2 ≤ power_vals.length) (hh : 2 ≤ hr_vals.length)
    (hn : n = min power_vals.length hr_vals.length)
    (hmid : mid = n / 2)
    (he1 : ef1 = mean ((power_vals.take n).take mid)
        / mean ((hr_vals.take n).take mid))
    (he2 : ef2 = mean ((power_vals.take n).drop mid)
        / mean ((hr_vals.take n).drop mid)) :
    (0 < mean ((hr_vals.take n).take mid) →
      0 < mean ((hr_vals.take n).drop mid) →
      0 < ef1 → ef2 ≠ 0 →
      _calculate_decoupling power_vals hr_vals
        = some ((ef1 - ef2) / ef1 * 100)) ∧
      (¬ (0 < mean ((hr_vals.take n).take mid) ∧
          0 < mean ((hr_vals.take n).drop mid) ∧
          0 < ef1 ∧ ef2 ≠ 0) →
      _calculate_decoupling power_vals hr_vals = none) := by
  subst hn hmid he1 he2
  constructor
  · intro hhr1 hhr2 hef1 hef2
    unfold _calculate_decoupling
    rw [if_neg (by omega)]
    simp only [if_pos hhr1, if_pos hhr2, truthy, Option.getD_some]
    rw [if_pos]
    refine ⟨by simp [ne_of_gt hef1], by simp [hef2], hef1⟩
  · intro hcond
    unfold _calculate_decoupling
    rw [if_neg (by omega)]
    by_cases h1 : 0 < mean ((hr_vals.take
        (min power_vals.length hr_vals.length)).take
        (min power_vals.length hr_vals.length / 2))
    · by_cases h2 : 0 < mean ((hr_vals.take
          (min power_vals.length hr_vals.length)).drop
          (min power_vals.length hr_vals.length / 2))
      · simp only [if_pos h1, if_pos h2, truthy, Option.getD_some]
        rw [if_neg]
        rintro ⟨-, c2, c3⟩
        exact hcond ⟨h1, h2, c3, by simpa using c2⟩
      · simp only [if_pos h1, if_neg h2, truthy]
        simp
    · simp only [if_neg h1, truthy]
      simp

/-- Witness for C6 (amended): power `[100, 100, 200, 200]` against constant
HR 100 gives EF1 = 1, EF2 = 2 and decoupling `(1 - 2) / 1 * 100`; the same
power against all-zero HR (undefined EFs) gives null. -/
theorem decoupling_formula_witness :
    (_calculate_decoupling [100, 100, 200, 200] [100, 100, 100, 100]
        = some ((((1:ℚ) - 2) / 1) * 100)) ∧
      _calculate_decoupling [100, 100, 200, 200] [0, 0, 0, 0] = none :=
  ⟨(decoupling_formula [100, 100, 200, 200] [100, 100, 100, 100] 4 2 1 2
      (by decide) (by decide) (by decide) (by decide)
      (by norm_num [mean]) (by norm_num [mean])).1
      (by norm_num [mean]) (by norm_num [mean]) (by norm_num) (by norm_num),
   (decoupling_formula [100, 100, 200, 200] [0, 0, 0, 0] 4 2 0 0
      (by decide) (by decide) (by decide) (by decide)
      (by norm_num [mean]) (by norm_num [mean])).2
      (by norm_num [mean])⟩

/-- C2: for every athlete state, a failed health gate (overall
`all_gates_pass = false`) forces recommendation `"red"`, no key-session
eligibility and session type `"recovery"`, regardless of the numeric
readiness score. -/
theorem failed_gate_forces_recovery (s : AthleteState)
    (h : (check_health_gates s).all_gates_pass = false) :
    (calculate_readiness s).recommendation = "red" ∧
      (calculate_readiness s).key_session_eligible = false ∧
      (calculate_readiness s).session_type_allowed = "recovery" := by
  simp [calculate_readiness, h]

/-- Athlete state with every factor at its baseline (raw score 94, above the
key-session threshold 65) but a fast-declining weight trend failing the
energy gate. -/
def gateFailState : AthleteState where
  hrv_current := some 45
  hrv_baseline := .val 45
  rhr_current := some 52
  rhr_baseline := .val 52
  sleep_last_night := some 8
  sleep_avg_7d := some 8
  recovery_current := some 65
  recovery_baseline := 65
  tsb := some 0
  whoop_hrv := none
  whoop_sleep_hours := none
  whoop_recovery_score := none
  whoop_resting_hr := none
  weight_trend := "declining_fast"
  injury_signals := []
  soreness_level := 0
  soreness_asymmetry := false
  life_stress_level := 3
  cognitive_fatigue := "low"

/-- Witness for C2: `gateFailState` scores 74 (above the key threshold) yet
is forced to red/recovery because the energy gate fails. -/
theorem failed_gate_forces_recovery_witness :
    (check_health_gates gateFailState).all_gates_pass = false ∧
      (65:ℚ) ≤ (calculate_readiness gateFailState).final_score ∧
      (calculate_readiness gateFailState).recommendation = "red" ∧
      (calculate_readiness gateFailState).key_session_eligible = false ∧
      (calculate_readiness gateFailState).session_type_allowed = "recovery" :=
  ⟨by decide,
   by
    norm_num [calculate_readiness, check_health_gates, gateFailState,
      pct_or_100, truthy, pyOr, JsonNum.get, JsonNum.getD,
      calculate_hrv_contribution, calculate_sleep_contribution,
      calculate_recovery_contribution, calculate_tsb_contribution,
      calculate_rhr_contribution],
   failed_gate_forces_recovery gateFailState (by decide)⟩

/-- C3: for every athlete state the gate penalty is 20 on any failed gate,
else 10 for two or more marginal gates, else 5 for exactly one, else 0; the
final score is `clamp(raw_score - gate_penalty, 0, 100)` and hence always in
`[0,100]`; and the all-missing state has raw score 0. -/
theorem final_score_clamped (s : AthleteState) :
    (calculate_readiness s).gate_penalty
        = (if (check_health_gates s).all_gates_pass = false then 20
          else if 2 ≤ (check_health_gates s).gates_marginal.length then 10
          else if (check_health_gates s).gates_marginal.length = 1 then 5
          else 0) ∧
      (calculate_readiness s).final_score
        = max 0 (min 100
            ((calculate_readiness s).raw_score
              - (calculate_readiness s).gate_penalty)) ∧
      0 ≤ (calculate_readiness s).final_score ∧
      (calculate_readiness s).final_score ≤ 100 ∧
      (calculate_readiness emptyState).raw_score = 0 := by
  refine ⟨by simp [calculate_readiness], by simp [calculate_readiness],
    ?_, ?_,
    by
      norm_num [calculate_readiness, emptyState, pyOr, truthy,
        JsonNum.get, JsonNum.getD, calculate_hrv_contribution,
        calculate_sleep_contribution, calculate_recovery_contribution,
        calculate_tsb_contribution, calculate_rhr_contribution]⟩
  · simp only [calculate_readiness]
    exact le_max_left _ _
  · simp only [calculate_readiness]
    exact max_le (by norm_num) (min_le_left _ _)

/-- C9: missing inputs never block a gate: missing-or-zero HRV or RHR data
defaults the autonomic percentages to 100 (so the autonomic gate passes),
a missing last-night sleep value passes the sleep gate, and the state with
no physiological data at all passes every gate with intensity
recommendation `"full"`. -/
theorem missing_inputs_pass_gates :
    (∀ s : AthleteState,
        truthy s.hrv_current = false ∨ truthy s.hrv_baseline.get = false →
        (check_health_gates s).hrv_pct = 100) ∧
      (∀ s : AthleteState,
        truthy s.rhr_current = false ∨ truthy s.rhr_baseline.get = false →
        (check_health_gates s).rhr_pct = 100) ∧
      (∀ s : AthleteState,
        (truthy s.hrv_current = false ∨ truthy s.hrv_baseline.get = false) →
        (truthy s.rhr_current = false ∨ truthy s.rhr_baseline.get = false) →
        (check_health_gates s).autonomic_pass = true) ∧
      (∀ s : AthleteState, s.sleep_last_night = none →
        (check_health_gates s).sleep_pass = true) ∧
      (check_health_gates emptyState).all_gates_pass = true ∧
      (check_health_gates emptyState).intensity_recommendation = "full" := by
  refine ⟨?_, ?_, ?_, ?_,
    by
      norm_num [check_health_gates, emptyState, pct_or_100, truthy,
        JsonNum.get]
      decide,
    by
      norm_num [check_health_gates, emptyState, pct_or_100, truthy,
        JsonNum.get]
      decide⟩
  · intro s h
    rcases h with h | h <;> simp [check_health_gates, pct_or_100, h]
  · intro s h
    rcases h with h | h <;> simp [check_health_gates, pct_or_100, h]
  · intro s h1 h2
    have e1 : pct_or_100 s.hrv_current s.hrv_baseline.get = 100 := by
      rcases h1 with h | h <;> simp [pct_or_100, h]
    have e2 : pct_or_100 s.rhr_current s.rhr_baseline.get = 100 := by
      rcases h2 with h | h <;> simp [pct_or_100, h]
    simp [check_health_gates, e1, e2]
    norm_num
  · intro s h
    simp [check_health_gates, h]

/-- Witness for C9: the empty state takes every branch of the theorem. -/
theorem missing_inputs_pass_gates_witness :
    (check_health_gates emptyState).hrv_pct = 100 ∧
      (check_health_gates emptyState).rhr_pct = 100 ∧
      (check_health_gates emptyState).autonomic_pass = true ∧
      (check_health_gates emptyState).sleep_pass = true :=
  ⟨missing_inputs_pass_gates.1 emptyState (Or.inl (by decide)),
   missing_inputs_pass_gates.2.1 emptyState (Or.inl (by decide)),
   missing_inputs_pass_gates.2.2.1 emptyState
     (Or.inl (by decide)) (Or.inl (by decide)),
   missing_inputs_pass_gates.2.2.2.1 emptyState (by decide)⟩

/-- C10: for every fatigue status, readiness status and training phase in the
documented vocabularies, the weekly key-session target equals
`clamp(2 + fatigue_adj + readiness_adj, 0, phase_limit)` with the adjustment
tables `fresh:+1, normal:0, tired:-1, exhausted:-2`, `high:0, moderate:0,
low:-1, very_low:-2` and phase limits `base:2, build:3, peak:2, taper:1,
recovery:0`. -/
theorem key_sessions_target_clamped
    (f r p : String)
    (hf : f ∈ ["fresh", "normal", "tired", "exhausted"])
    (hr : r ∈ ["high", "moderate", "low", "very_low"])
    (hp : p ∈ ["base", "build", "peak", "taper", "recovery"]) :
    calculate_key_sessions_target f r p
      = max 0 (min (2 + fatigue_adjustment f + readiness_adjustment r)
          (phase_limit p)) := by
  fin_cases hf <;> fin_cases hr <;> fin_cases hp <;> decide

/-- Witness for C10: a fresh, high-readiness build week targets 3 key
sessions, the clamp of 2+1+0 at phase limit 3. -/
theorem key_sessions_target_clamped_witness :
    calculate_key_sessions_target "fresh" "high" "build"
      = max 0 (min (2 + fatigue_adjustment "fresh" + readiness_adjustment "high")
          (phase_limit "build")) :=
  key_sessions_target_clamped "fresh" "high" "build"
    (by decide) (by decide) (by decide)

end AthleteCoaching
